import Mathlib

/-!
# Agent99 — coordination/learning engine: shallow embedding and verification

This file is a shallow embedding, in Lean 4, of the conversation-routing and
learning engine of the Agent99 repository (`src/services/super_agent.py`,
`src/services/agents.py`, `src/routes/super_agent.py`), together with proofs
about the embedded code.

Modelling conventions, used throughout:

* Python `float` literals and arithmetic are modelled by `ℚ` (all scores in the
  source are small decimal literals such as `0.8`, written here as `pf 4 5`).
* Python `datetime.now()` is modelled by an explicit `now : Nat` parameter
  (seconds); within one call of a pipeline all `now()` readings are identified.
* A nullable string column (SQL `NULL` / Python `None`) is modelled by the
  empty string `""`: every use of such a value in the source is either a
  truthiness test (`if not x`, `x or "general"`), for which `None` and `""`
  behave identically, or an equality comparison for which the identification
  is harmless and unexercised by the theorems below.
* Python dictionaries whose key set matters to the claims (the coordinator's
  `global_memory`) are modelled by structures whose list-valued optional keys
  have type `Option (List _)`; `none` models an absent key, so that an
  `append` to an absent key (a Python `KeyError`, caught by the surrounding
  `try/except`) is observable.
* The SQL queries issued through SQLModel (`select ... where ... order_by ...
  limit n`) are modelled as filter / stable-sort / take over a list model of
  each table; the tables carry the columns the queries reference.
* Exact decimal rendering in Python f-strings (`f"{x:.2f}"`) is abstracted by
  a num/den rendering of the rational; no theorem observes those characters.
-/

namespace Agent99

/-! ## Python string primitives

`str`-level helpers used by the source: slicing `s[:n]`, the substring test
used by SQL `column.contains(x)` (i.e. `LIKE '%x%'`), `str.replace(pat, "")`,
`str.strip("{}")`, and the validity test performed by `uuid.UUID(s)`.
All are structurally recursive so that concrete witnesses evaluate by
`decide`/`rfl`. -/

/-- Python slicing `s[:n]` (by code points). -/
def strTake (s : String) (n : Nat) : String :=
  String.mk (s.toList.take n)

/-- Substring search on character lists: `containsSub needle hay = true` iff
`needle` occurs contiguously in `hay`.  Models Python `needle in hay` and the
SQL `hay LIKE '%needle%'` produced by `column.contains(needle)`. -/
def containsSub (needle : List Char) : List Char → Bool
  | [] => needle.isEmpty
  | c :: r => needle.isPrefixOf (c :: r) || containsSub needle r

/-- Embeds `strContains hay needle`: Python `needle in hay`. -/
def strContains (hay needle : String) : Bool :=
  containsSub needle.toList hay.toList

/-- Auxiliary for `eraseAllSub`: scans a character list left to right, deleting
each leftmost non-overlapping occurrence of `pat`; the `Nat` argument counts
characters still to be skipped from a match already consumed. -/
def eraseAllSubAux (pat : List Char) : List Char → Nat → List Char
  | [], _ => []
  | _ :: r, k + 1 => eraseAllSubAux pat r k
  | c :: r, 0 =>
    if !pat.isEmpty && pat.isPrefixOf (c :: r) then
      eraseAllSubAux pat r (pat.length - 1)
    else
      c :: eraseAllSubAux pat r 0

/-- Python `s.replace(pat, "")`: removes every leftmost non-overlapping
occurrence of `pat`. -/
def strRemoveAll (pat s : String) : String :=
  String.mk (eraseAllSubAux pat.toList s.toList 0)

/-- The two brace characters, `strip`ped by `uuid.UUID`. -/
def isBraceChar (c : Char) : Bool :=
  c = Char.ofNat 123 || c = Char.ofNat 125

/-- Python `s.strip("{}")`: removes leading and trailing brace characters. -/
def stripBraces (s : String) : String :=
  String.mk ((((s.toList.dropWhile isBraceChar).reverse).dropWhile isBraceChar).reverse)

/-- A hexadecimal digit. -/
def isHexDigitChar (c : Char) : Bool :=
  c.isDigit || ('a' ≤ c && c ≤ 'f') || ('A' ≤ c && c ≤ 'F')

/-- Hex-digit runs with PEP-515 single underscores between digits, as accepted
by Python `int(s, 16)` after sign and base prefix. -/
def hexDigitsU : List Char → Bool
  | [] => false
  | [c] => isHexDigitChar c
  | c :: '_' :: r => isHexDigitChar c && hexDigitsU r
  | c :: r => isHexDigitChar c && hexDigitsU r

/-- Whether Python `int(s, 16)` succeeds: optional surrounding whitespace,
optional sign, optional `0x`/`0X` prefix (an underscore may directly follow
the prefix), then a non-empty underscore-grouped hex-digit run. -/
def pyIntHexOk (s : String) : Bool :=
  let cs := (s.toList.dropWhile Char.isWhitespace).reverse.dropWhile Char.isWhitespace |>.reverse
  let cs := match cs with
    | '+' :: r => r
    | '-' :: r => r
    | r => r
  match cs with
  | '0' :: 'x' :: '_' :: r => hexDigitsU r
  | '0' :: 'x' :: r => hexDigitsU r
  | '0' :: 'X' :: '_' :: r => hexDigitsU r
  | '0' :: 'X' :: r => hexDigitsU r
  | r => hexDigitsU r

/-- Embeds `SuperAgent._is_valid_uuid` (src/services/super_agent.py:259-266):
`uuid.UUID(s)` succeeds iff, after removing `urn:` and `uuid:` markers,
stripping braces and removing dashes, exactly 32 characters remain and
`int(hex, 16)` succeeds. -/
def is_valid_uuid (s : String) : Bool :=
  let hex := strRemoveAll "uuid:" (strRemoveAll "urn:" s)
  let hex := stripBraces hex
  let hex := strRemoveAll "-" hex
  hex.length = 32 && pyIntHexOk hex

/-! ## Generic list helpers for the SQL model -/

/-- Stable insertion (descending by `key`) used by `sortOnDesc`. -/
def insertDesc {α : Type} {κ : Type} [LinearOrder κ] (key : α → κ) (x : α) :
    List α → List α
  | [] => [x]
  | y :: ys => if key y ≤ key x then x :: y :: ys else y :: insertDesc key x ys

/-- Stable sort, descending by `key`; models `ORDER BY key DESC`. -/
def sortOnDesc {α : Type} {κ : Type} [LinearOrder κ] (key : α → κ) :
    List α → List α
  | [] => []
  | x :: xs => insertDesc key x (sortOnDesc key xs)

/-- First-occurrence deduplication (used to model iteration over distinct
values in first-seen order, e.g. `Counter.most_common`). -/
def dedupFirst (l : List String) : List String :=
  l.foldl (fun acc x => if acc.contains x then acc else acc ++ [x]) []

/-- Number of occurrences of `x` in `l` (Python `list.count`). -/
def countOcc (x : String) (l : List String) : Nat :=
  (l.filter (fun y => y = x)).length

/-- Embeds `max(set(l), key=l.count)` with the earliest maximal element as the
tie-break (the Python set-iteration order for ties is unspecified). -/
def mostCommon (l : List String) : String :=
  l.foldl (fun best c => if countOcc best l < countOcc c l then c else best)
    (l.headD "")

/-- Embeds `Counter(l).most_common(3)` keys: distinct values, stably sorted by count
descending, first three. -/
def mostCommon3 (l : List String) : List String :=
  (sortOnDesc (fun t => countOcc t l) (dedupFirst l)).take 3

/-- Association-list update with Python `dict` semantics: replace in place if
the key exists, else append. -/
def setAssoc {β : Type} (l : List (String × β)) (k : String) (v : β) :
    List (String × β) :=
  if l.any (fun p => p.1 = k) then
    l.map (fun p => if p.1 = k then (k, v) else p)
  else
    l ++ [(k, v)]

/-- num/den rendering of a rational, abstracting Python float formatting. -/
def ratRepr (q : ℚ) : String :=
  toString q.num ++ "/" ++ toString q.den

/-- A Python float literal `n/d`, written through `mkRat` so that concrete
evaluations reduce inside the kernel (`(4 : ℚ)/5`-style numerals do not). -/
def pf (n : Int) (d : Nat) : ℚ := mkRat n d

/-! ## Data model

The conversation object processed by the engine (constructed by the routes
from a `ConversationRequest`), the persisted tables referenced by the
engine's queries, and the pattern values mined from them.  Nullable string
fields are the empty string (see the header). -/

/-- A conversation as handed to `SuperAgent.process_conversation`. -/
structure Conversation where
  id : String
  customer_id : String
  category : String
  tags : List String
  sentiment : String
  content : String
  deriving Repr, DecidableEq

/-- A row of the `conversations` table, with the columns the engine's queries
reference (`category`, `sentiment`, `tags`, `customer_id`, `created_at`). -/
structure ConversationRow where
  id : String
  category : String
  sentiment : String
  tags : List String
  customer_id : String
  status : String
  created_at : Nat
  deriving Repr, DecidableEq

/-- A row of the `agent_learnings` table (`models/agent.py:AgentLearning`):
the persisted columns are `agent_type`, `learning_type`, `content`,
`confidence_score`, `category`, `created_at`.  There is no
`conversation_id` column — which is why `_save_learnings_to_db` detects
duplicates by a substring search on `content`. -/
structure LearningRow where
  agent_type : String
  learning_type : String
  content : String
  confidence_score : ℚ
  category : String
  created_at : Nat
  deriving Repr, DecidableEq

/-- A row of the `agent_metrics` table as written by `_update_metrics_in_db`. -/
structure MetricRow where
  agent_id : String
  conversation_id : String
  success_rate : ℚ
  response_time : ℚ
  customer_satisfaction : ℚ
  deriving Repr, DecidableEq

/-- The single persisted `super_agents` row (`models/agent.py:SuperAgentModel`),
restricted to the fields the engine reads or writes. -/
structure SuperAgentRow where
  id : String
  total_conversations_processed : Nat
  total_learnings_generated : Nat
  success_rate : ℚ
  last_learning_cycle : Option Nat
  last_optimization : Option Nat
  deriving Repr, DecidableEq

/-- The persistent store, one list per table (`customer_profiles` is reduced
to the profile ids, the only aspect `_get_customer_profile` existence
checks feed back into the engine). -/
structure Db where
  conversations : List ConversationRow
  agent_learnings : List LearningRow
  agent_metrics : List MetricRow
  super_agents : List SuperAgentRow
  customer_profiles : List String
  deriving Repr, DecidableEq

/-- The empty store. -/
def emptyDb : Db := ⟨[], [], [], [], []⟩

/-- A pattern emitted by `_find_similar_conversation_patterns`: either a
`tag_similarity` match (with the matched tag) or a
`category_sentiment_similarity` match (tag empty). -/
structure SimilarPattern where
  ptype : String
  tag : String
  conversation_id : String
  category : String
  sentiment : String
  success_rate : ℚ
  similarity_score : ℚ
  deriving Repr, DecidableEq

/-- A learning surfaced by `_find_agent_learnings_for_category`. -/
structure AgentLearningInfo where
  agent_type : String
  learning_type : String
  content : String
  confidence_score : ℚ
  category : String
  created_at : Nat
  deriving Repr, DecidableEq

/-- A `customer_success_pattern` from `_find_customer_success_patterns`. -/
structure CustomerPattern where
  conversation_id : String
  category : String
  tags : List String
  sentiment : String
  success_rate : ℚ
  pattern_strength : ℚ
  deriving Repr, DecidableEq

/-- The routing decision dictionary built by `_apply_learnings_for_routing`
and `_make_intelligent_routing_decision`. -/
structure RoutingDecision where
  recommended_agents : List String
  confidence_score : ℚ
  learning_based : Bool
  patterns_used : List String
  optimization_applied : Bool
  deriving Repr, DecidableEq

/-! ## Pattern Store Access / Pattern Miner

`_get_conversation_success_rate`, `_find_similar_conversation_patterns`,
`_find_agent_learnings_for_category`, `_find_customer_success_patterns`
(src/services/super_agent.py:363-483, 581-593). -/

/-- Embeds `SuperAgent._get_conversation_success_rate`: the source returns the
constant default `0.8` ("Por ahora, retornar un valor por defecto"). -/
def get_conversation_success_rate (_conversation_id : String) : ℚ := pf 4 5

/-- Embeds `SuperAgent._find_similar_conversation_patterns`
(src/services/super_agent.py:363-417): for each of the first 3 tags, the 5
most recent other conversations carrying that tag become `tag_similarity`
patterns (similarity 0.8); then of the 10 most recent other conversations of
the same category, those with the same sentiment become
`category_sentiment_similarity` patterns (similarity 0.7). -/
def find_similar_conversation_patterns (db : Db) (conv : Conversation) :
    List SimilarPattern :=
  let tagPatterns :=
    (conv.tags.take 3).flatMap (fun tag =>
      let sims :=
        (sortOnDesc (fun c => c.created_at)
          (db.conversations.filter
            (fun c => c.tags.contains tag && c.id ≠ conv.id))).take 5
      sims.map (fun c =>
        { ptype := "tag_similarity", tag := tag, conversation_id := c.id,
          category := c.category, sentiment := c.sentiment,
          success_rate := get_conversation_success_rate c.id,
          similarity_score := pf 4 5 }))
  let catRows :=
    (sortOnDesc (fun c => c.created_at)
      (db.conversations.filter
        (fun c => c.category = conv.category && c.id ≠ conv.id))).take 10
  let catPatterns :=
    (catRows.filter (fun c => c.sentiment = conv.sentiment)).map (fun c =>
      { ptype := "category_sentiment_similarity", tag := "",
        conversation_id := c.id, category := c.category,
        sentiment := c.sentiment,
        success_rate := get_conversation_success_rate c.id,
        similarity_score := pf 7 10 })
  tagPatterns ++ catPatterns

/-- Embeds `SuperAgent._find_agent_learnings_for_category`
(src/services/super_agent.py:419-447): up to 10 learnings of the category
with confidence > 0.6, ordered by confidence descending. -/
def find_agent_learnings_for_category (db : Db) (category : String) :
    List AgentLearningInfo :=
  ((sortOnDesc (fun l => l.confidence_score)
      (db.agent_learnings.filter
        (fun l => l.category = category && pf 3 5 < l.confidence_score))).take 10).map
    (fun l =>
      { agent_type := l.agent_type, learning_type := l.learning_type,
        content := l.content, confidence_score := l.confidence_score,
        category := l.category, created_at := l.created_at })

/-- Embeds `SuperAgent._find_customer_success_patterns`
(src/services/super_agent.py:449-483): an absent or non-UUID customer
reference short-circuits to `[]`; otherwise the customer's 10 most recent
conversations with success rate > 0.7 become `customer_success_pattern`s. -/
def find_customer_success_patterns (db : Db) (customer_id : String) :
    List CustomerPattern :=
  if customer_id = "" || !is_valid_uuid customer_id then []
  else
    let rows :=
      (sortOnDesc (fun c => c.created_at)
        (db.conversations.filter (fun c => c.customer_id = customer_id))).take 10
    (rows.filter
        (fun c => pf 7 10 < get_conversation_success_rate c.id)).map (fun c =>
      { conversation_id := c.id, category := c.category, tags := c.tags,
        sentiment := c.sentiment,
        success_rate := get_conversation_success_rate c.id,
        pattern_strength := pf 4 5 })

/-! ## Routing Decision Engine

`_make_intelligent_routing_decision` (src/services/super_agent.py:485-551). -/

/-- Steps 1–3 of `_make_intelligent_routing_decision`: the recommended agents
accumulated from the three pattern sources (before the coordinator fallback
and deduplication), together with `patterns_used`. -/
def collectRecommended (similar_patterns : List SimilarPattern)
    (agent_learnings : List AgentLearningInfo)
    (customer_patterns : List CustomerPattern) :
    List String × List String :=
  let acc : List String × List String := ([], [])
  let acc :=
    if !similar_patterns.isEmpty then
      let successful_categories :=
        (similar_patterns.filter (fun p => pf 7 10 < p.success_rate)).map
          (fun p => p.category)
      if !successful_categories.isEmpty then
        (acc.1 ++ successful_categories.take 2,
         acc.2 ++ ["conversation_similarity"])
      else acc
    else acc
  let acc :=
    if !agent_learnings.isEmpty then
      let successful_agents :=
        (agent_learnings.filter (fun l => pf 4 5 < l.confidence_score)).map
          (fun l => l.agent_type)
      if !successful_agents.isEmpty then
        (acc.1 ++ successful_agents.take 2, acc.2 ++ ["agent_learnings"])
      else acc
    else acc
  let acc :=
    if !customer_patterns.isEmpty then
      let customer_success_categories :=
        (customer_patterns.filter (fun p => pf 4 5 < p.success_rate)).map
          (fun p => p.category)
      if !customer_success_categories.isEmpty then
        (acc.1 ++ customer_success_categories.take 2,
         acc.2 ++ ["customer_success_patterns"])
      else acc
    else acc
  acc

/-- Embeds `SuperAgent._make_intelligent_routing_decision`
(src/services/super_agent.py:485-551): collect agents from the three pattern
sources; if fewer than 2, append `"coordinator"`; deduplicate
(`list(set(...))` — the model fixes one order, membership is exact);
confidence is `min(0.9, 0.5 + 0.1 * len(patterns_used))`. -/
def make_intelligent_routing_decision (_conv : Conversation)
    (similar_patterns : List SimilarPattern)
    (agent_learnings : List AgentLearningInfo)
    (customer_patterns : List CustomerPattern) : RoutingDecision :=
  let acc := collectRecommended similar_patterns agent_learnings customer_patterns
  let ra := acc.1
  let ra := if ra.length < 2 then ra ++ ["coordinator"] else ra
  let ra := ra.dedup
  { recommended_agents := ra,
    confidence_score := min (pf 9 10) (pf 1 2 + mkRat acc.2.length 1 * pf 1 10),
    learning_based := true,
    patterns_used := acc.2,
    optimization_applied := false }

/-! ## Agent Pool and Synthesis

`_process_with_specific_agent`, `_route_to_specialized_agents_with_learnings`
(src/services/super_agent.py:1844-1936) and `_synthesize_agent_results` with
its helpers (src/services/super_agent.py:650-665, 1278-1364). -/

/-- One element of an agent result's `learning_generated` list. -/
structure AgentLearningGenerated where
  ltype : String
  content : String
  confidence : ℚ
  category : String
  deriving Repr, DecidableEq

/-- The dictionary built by `_process_with_specific_agent`.  `success` models
`result.get("success", False)`: the source never sets the key on these
results, so it is `false` here. -/
structure AgentResultData where
  agent_type : String
  conversation_id : String
  processing_timestamp : Nat
  confidence_score : ℚ
  recommendations : List String
  actions_taken : List String
  learning_generated : List AgentLearningGenerated
  success : Bool
  deriving Repr, DecidableEq

/-- An entry of the `agent_results` dictionary: either a result dictionary or
the `{"error": str(e)}` recorded when an agent raised. -/
inductive AgentResult where
  | ok (data : AgentResultData)
  | err (msg : String)
  deriving Repr, DecidableEq

/-- Embeds `SuperAgent._process_with_specific_agent`
(src/services/super_agent.py:1884-1936): a simulated agent run with constant
confidence 0.8, per-agent-type canned recommendations and one generated
learning. -/
def process_with_specific_agent (conv : Conversation) (agent_type : String)
    (now : Nat) : AgentResultData :=
  let recommendations :=
    if agent_type = "soporte" then
      ["Verificar historial de problemas similares",
       "Aplicar soluciones probadas anteriormente",
       "Escalar si es necesario"]
    else if agent_type = "ventas" then
      ["Identificar necesidades del cliente",
       "Presentar productos relevantes",
       "Gestionar objeciones"]
    else if agent_type = "coordinator" then
      ["Coordinar entre múltiples agentes",
       "Asegurar resolución completa",
       "Mantener consistencia en la experiencia"]
    else []
  { agent_type := agent_type, conversation_id := conv.id,
    processing_timestamp := now, confidence_score := pf 4 5,
    recommendations := recommendations, actions_taken := [],
    learning_generated :=
      [{ ltype := "agent_performance",
         content := "Agente " ++ agent_type ++
           " procesó conversación de categoría " ++ conv.category,
         confidence := pf 4 5, category := conv.category }],
    success := false }

/-- Embeds `SuperAgent._route_to_specialized_agents_with_learnings`
(src/services/super_agent.py:1844-1882): when the routing decision is
learning-based and non-empty, run every recommended agent; otherwise run the
single default agent (the category, or `"coordinator"` if the category is
missing).  The `agent_results` dictionary is an association list in
insertion order. -/
def route_to_specialized_agents_with_learnings (conv : Conversation)
    (intelligent_routing : RoutingDecision) (now : Nat) :
    List (String × AgentResult) :=
  if !intelligent_routing.recommended_agents.isEmpty &&
      intelligent_routing.learning_based then
    intelligent_routing.recommended_agents.map
      (fun t => (t, AgentResult.ok (process_with_specific_agent conv t now)))
  else
    let default_agent := if conv.category ≠ "" then conv.category else "coordinator"
    [(default_agent,
      AgentResult.ok (process_with_specific_agent conv default_agent now))]

/-- The `risk_assessment` dictionary. -/
structure Risk where
  level : String
  score : ℚ
  deriving Repr, DecidableEq

/-- An opportunity identified by `_identify_opportunities`. -/
structure Opportunity where
  otype : String
  description : String
  confidence : ℚ
  deriving Repr, DecidableEq

/-- Embeds `SuperAgent._calculate_overall_sentiment`
(src/services/super_agent.py:1278-1289): the source returns the constant
`"neutral"` ("Por ahora, retornar neutral"). -/
def calculate_overall_sentiment (_agent_results : List (String × AgentResult)) :
    String := "neutral"

/-- Embeds `SuperAgent._calculate_overall_confidence`
(src/services/super_agent.py:1291-1302): the source returns the constant
default `0.8` regardless of the agent results ("Por ahora, retornar un
valor por defecto"); the commented-out intent is a per-agent aggregation. -/
def calculate_overall_confidence (_agent_results : List (String × AgentResult)) :
    ℚ := pf 4 5

/-- Embeds `SuperAgent._extract_recommended_actions`
(src/services/super_agent.py:1304-1317): concatenate the `recommendations`
of every result dictionary carrying that key (error dictionaries do not). -/
def extract_recommended_actions (agent_results : List (String × AgentResult)) :
    List String :=
  agent_results.flatMap (fun p =>
    match p.2 with
    | .ok d => d.recommendations
    | .err _ => [])

/-- Embeds `SuperAgent._assess_overall_risk` (src/services/super_agent.py:1319-1330):
the constant `{"level": "low", "score": 0.3}`. -/
def assess_overall_risk (_agent_results : List (String × AgentResult)) : Risk :=
  { level := "low", score := pf 3 10 }

/-- Embeds `SuperAgent._identify_opportunities`
(src/services/super_agent.py:1332-1349): one opportunity per result with
`result.get("success", False)` true. -/
def identify_opportunities (agent_results : List (String × AgentResult)) :
    List Opportunity :=
  agent_results.filterMap (fun p =>
    match p.2 with
    | .ok d =>
      if d.success then
        some { otype := "agent_" ++ p.1 ++ "_opportunity",
               description := "Agente " ++ p.1 ++ " funcionando correctamente",
               confidence := pf 4 5 }
      else none
    | .err _ => none)

/-- Embeds `SuperAgent._extract_learning_points`
(src/services/super_agent.py:1351-1364): concatenate `learning_generated`
of every result dictionary carrying that key. -/
def extract_learning_points (agent_results : List (String × AgentResult)) :
    List AgentLearningGenerated :=
  agent_results.flatMap (fun p =>
    match p.2 with
    | .ok d => d.learning_generated
    | .err _ => [])

/-- The synthesis dictionary built by `_synthesize_agent_results`. -/
structure Synthesis where
  conversation_id : String
  timestamp : Nat
  agent_participation : List String
  overall_sentiment : String
  confidence_score : ℚ
  recommended_actions : List String
  risk_assessment : Risk
  opportunity_identification : List Opportunity
  learning_points : List AgentLearningGenerated
  deriving Repr, DecidableEq

/-- Embeds `SuperAgent._synthesize_agent_results`
(src/services/super_agent.py:650-665). -/
def synthesize_agent_results (agent_results : List (String × AgentResult))
    (conv : Conversation) (now : Nat) : Synthesis :=
  { conversation_id := conv.id, timestamp := now,
    agent_participation := agent_results.map (fun p => p.1),
    overall_sentiment := calculate_overall_sentiment agent_results,
    confidence_score := calculate_overall_confidence agent_results,
    recommended_actions := extract_recommended_actions agent_results,
    risk_assessment := assess_overall_risk agent_results,
    opportunity_identification := identify_opportunities agent_results,
    learning_points := extract_learning_points agent_results }

/-! ## Global memory and learned optimizations

`SuperAgent.__init__` (src/services/super_agent.py:44-87) initialises
`global_memory` with eight keys; the `/super-agent/reset-memory` route
(src/routes/super_agent.py:180-213) replaces it by a dictionary with only
six, dropping `agent_optimizations` and `routing_optimizations`.  Keys whose
presence can differ are `Option`-valued (`none` = key absent). -/

/-- A learned optimization built by `_optimize_agent_parameters_from_learnings`
or `_optimize_routing_from_learnings`. -/
inductive Optimization where
  /-- Embeds `{"type": "agent_parameter_optimization", ...}` -/
  | agentParam (agent_type optimization : String) (confidence : ℚ)
      (category : String) (applied : Bool)
  /-- Embeds `{"type": "routing_logic_optimization", ...}` -/
  | routingLogic (pattern : String) (confidence : ℚ) (category : String)
      (applied : Bool)
  deriving Repr, DecidableEq

/-- Set the `applied` flag of an optimization dictionary. -/
def Optimization.setApplied : Optimization → Bool → Optimization
  | .agentParam a o c cat _, b => .agentParam a o c cat b
  | .routingLogic p c cat _, b => .routingLogic p c cat b

/-- An entry of `global_memory["agent_optimizations"]` as appended by
`_apply_agent_parameter_optimization`. -/
structure AppliedAgentOpt where
  timestamp : Nat
  optimization : Optimization
  status : String
  deriving Repr, DecidableEq

/-- An entry of `global_memory["routing_optimizations"]` as appended by
`_apply_routing_optimization`; `routing_decision` is `none` when the empty
dictionary `{}` was passed (as `_apply_single_optimization` does). -/
structure AppliedRoutingOpt where
  timestamp : Nat
  optimization : Optimization
  routing_decision : Option RoutingDecision
  status : String
  deriving Repr, DecidableEq

/-- An entry of `global_memory["learning_cycles"]` (`_trigger_learning_cycle`). -/
structure LearningCycle where
  timestamp : Nat
  conversations_analyzed : Nat
  patterns_identified : Nat
  optimizations_applied : Nat
  insights_generated : Nat
  deriving Repr, DecidableEq

/-- The `performance_metrics` snapshot recorded by `_run_optimization_cycle`
(computed by `_analyze_system_performance`). -/
structure PerformanceAnalysis where
  total_conversations : Nat
  success_rate : ℚ
  learning_cycles : Nat
  optimization_count : Nat
  deriving Repr, DecidableEq

/-- An entry of `global_memory["optimization_history"]`
(`_run_optimization_cycle`, src/services/super_agent.py:938-985). -/
structure OptimizationRecord where
  timestamp : Nat
  performance_metrics : PerformanceAnalysis
  agents_applied : Nat
  routing_applied : Nat
  memory_applied : Nat
  expected_improvement : ℚ
  deriving Repr, DecidableEq

/-- An entry of `global_memory["conversation_trends"]` (keyed by conversation
id); set by `_update_global_memory`. -/
structure TrendEntry where
  category : String
  tags : List String
  timestamp : Nat
  synthesis : Synthesis
  deriving Repr, DecidableEq

/-- The coordinator's `global_memory` dictionary.  `customer_patterns`,
`agent_performance` and `business_insights` are never written by the source;
they are kept for the key set.  `agent_optimizations` and
`routing_optimizations` are `Option`-valued because the reset route drops
those keys. -/
structure GlobalMemory where
  customer_patterns : List (String × String)
  conversation_trends : List (String × TrendEntry)
  agent_performance : List (String × String)
  business_insights : List (String × String)
  learning_cycles : List LearningCycle
  optimization_history : List OptimizationRecord
  agent_optimizations : Option (List AppliedAgentOpt)
  routing_optimizations : Option (List AppliedRoutingOpt)
  deriving Repr, DecidableEq

/-- Embeds `global_memory` as built by `SuperAgent.__init__`
(src/services/super_agent.py:50-59): all eight keys present and empty. -/
def initGlobalMemory : GlobalMemory :=
  { customer_patterns := [], conversation_trends := [],
    agent_performance := [], business_insights := [],
    learning_cycles := [], optimization_history := [],
    agent_optimizations := some [], routing_optimizations := some [] }

/-- Embeds `global_memory` as reassigned by the `/super-agent/reset-memory` route
(src/routes/super_agent.py:185-192): only six keys — `agent_optimizations`
and `routing_optimizations` are absent. -/
def resetGlobalMemory : GlobalMemory :=
  { customer_patterns := [], conversation_trends := [],
    agent_performance := [], business_insights := [],
    learning_cycles := [], optimization_history := [],
    agent_optimizations := none, routing_optimizations := none }

/-- Embeds `SuperAgent._apply_agent_parameter_optimization`
(src/services/super_agent.py:1777-1799): appends to
`global_memory["agent_optimizations"]` and returns `True`; if the key is
absent the append raises `KeyError`, the `except` returns `False` and the
memory is unchanged. -/
def apply_agent_parameter_optimization (mem : GlobalMemory)
    (opt : Optimization) (now : Nat) : Bool × GlobalMemory :=
  match mem.agent_optimizations with
  | none => (false, mem)
  | some l =>
    let entry : AppliedAgentOpt :=
      { timestamp := now, optimization := opt, status := "applied" }
    (true, { mem with agent_optimizations := some (l ++ [entry]) })

/-- Embeds `SuperAgent._apply_routing_optimization`
(src/services/super_agent.py:1801-1826): same shape for
`global_memory["routing_optimizations"]`, recording the routing decision it
was given. -/
def apply_routing_optimization (mem : GlobalMemory) (opt : Optimization)
    (rd : Option RoutingDecision) (now : Nat) : Bool × GlobalMemory :=
  match mem.routing_optimizations with
  | none => (false, mem)
  | some l =>
    let entry : AppliedRoutingOpt :=
      { timestamp := now, optimization := opt, routing_decision := rd,
        status := "applied" }
    (true, { mem with routing_optimizations := some (l ++ [entry]) })

/-- Embeds `SuperAgent._apply_single_optimization`
(src/services/super_agent.py:1828-1842): dispatch on the `type` field; a
routing optimization is re-applied with the empty dictionary `{}` as the
decision. -/
def apply_single_optimization (mem : GlobalMemory) (opt : Optimization)
    (now : Nat) : Bool × GlobalMemory :=
  match opt with
  | .agentParam _ _ _ _ _ => apply_agent_parameter_optimization mem opt now
  | .routingLogic _ _ _ _ => apply_routing_optimization mem opt none now

/-- Embeds `SuperAgent._optimize_agent_parameters_from_learnings`
(src/services/super_agent.py:1705-1739): the top 5 `agent_optimization`
learnings of the category with confidence > 0.8; each is applied through
`_apply_agent_parameter_optimization` and collected only when the
application reports success. -/
def optimize_agent_parameters_from_learnings (db : Db) (conv : Conversation)
    (mem : GlobalMemory) (now : Nat) : List Optimization × GlobalMemory :=
  let ls :=
    (sortOnDesc (fun l => l.confidence_score)
      (db.agent_learnings.filter (fun l =>
        l.learning_type = "agent_optimization" &&
        l.category = conv.category && pf 4 5 < l.confidence_score))).take 5
  ls.foldl
    (fun (acc : List Optimization × GlobalMemory) l =>
      let opt := Optimization.agentParam l.agent_type l.content
        l.confidence_score l.category false
      match apply_agent_parameter_optimization acc.2 opt now with
      | (true, mem') => (acc.1 ++ [opt.setApplied true], mem')
      | (false, mem') => (acc.1, mem'))
    ([], mem)

/-- Embeds `SuperAgent._optimize_routing_from_learnings`
(src/services/super_agent.py:1741-1775): the top 3 `routing_optimization`
learnings of the category with confidence > 0.7, applied through
`_apply_routing_optimization` with the current routing decision. -/
def optimize_routing_from_learnings (db : Db) (conv : Conversation)
    (rd : RoutingDecision) (mem : GlobalMemory) (now : Nat) :
    List Optimization × GlobalMemory :=
  let ps :=
    (sortOnDesc (fun l => l.confidence_score)
      (db.agent_learnings.filter (fun l =>
        l.learning_type = "routing_optimization" &&
        l.category = conv.category && pf 7 10 < l.confidence_score))).take 3
  ps.foldl
    (fun (acc : List Optimization × GlobalMemory) p =>
      let opt := Optimization.routingLogic p.content p.confidence_score
        p.category false
      match apply_routing_optimization acc.2 opt (some rd) now with
      | (true, mem') => (acc.1 ++ [opt.setApplied true], mem')
      | (false, mem') => (acc.1, mem'))
    ([], mem)

/-- Embeds `SuperAgent._apply_learnings_optimizations`
(src/services/super_agent.py:553-579): gather agent-parameter and routing
optimizations (each already applied during gathering), then apply each of
them once more through `_apply_single_optimization`, and return the list. -/
def apply_learnings_optimizations (db : Db) (conv : Conversation)
    (rd : RoutingDecision) (mem : GlobalMemory) (now : Nat) :
    List Optimization × GlobalMemory :=
  let (agentOpts, mem) := optimize_agent_parameters_from_learnings db conv mem now
  let (routingOpts, mem) := optimize_routing_from_learnings db conv rd mem now
  let optimizations := agentOpts ++ routingOpts
  let mem := optimizations.foldl
    (fun m opt => (apply_single_optimization m opt now).2) mem
  (optimizations, mem)

/-- Embeds `SuperAgent._apply_learnings_for_routing`
(src/services/super_agent.py:301-361): mine the three pattern sources; if
all are empty fall back to `{[category, "coordinator"], 0.5,
learning_based: False}`; otherwise decide from the patterns, mark
`learning_based`, apply learned optimizations and record whether any were
applied. -/
def apply_learnings_for_routing (db : Db) (conv : Conversation)
    (mem : GlobalMemory) (now : Nat) : RoutingDecision × GlobalMemory :=
  let similar_patterns := find_similar_conversation_patterns db conv
  let agent_learnings := find_agent_learnings_for_category db conv.category
  let customer_patterns := find_customer_success_patterns db conv.customer_id
  if similar_patterns.isEmpty && agent_learnings.isEmpty &&
      customer_patterns.isEmpty then
    ({ recommended_agents := [conv.category, "coordinator"],
       confidence_score := pf 1 2, learning_based := false,
       patterns_used := [], optimization_applied := false }, mem)
  else
    let rd := make_intelligent_routing_decision conv similar_patterns
      agent_learnings customer_patterns
    let rd := { rd with learning_based := true }
    let p := apply_learnings_optimizations db conv rd mem now
    ({ rd with optimization_applied := !p.1.isEmpty }, p.2)

/-! ## Learning extraction

`_identify_patterns` and its four sources, `_learn_from_agent_performance`,
`_extract_business_insights`, `_has_significant_learning`
(src/services/super_agent.py:710-900, 1366-1466). -/

/-- A pattern dictionary from the `_identify_*_patterns` helpers. -/
structure PatternId where
  ptype : String
  pattern : String
  confidence : ℚ
  data_points : Nat
  deriving Repr, DecidableEq

/-- A learning/insight dictionary from `_learn_from_agent_performance` or
`_extract_business_insights`. -/
structure LearningItem where
  ltype : String
  content : String
  confidence : ℚ
  category : String
  deriving Repr, DecidableEq

/-- The `learning_outcome` dictionary built by `_learn_from_conversation`. -/
structure LearningOutcome where
  conversation_id : String
  learning_timestamp : Nat
  patterns_identified : List PatternId
  system_improvements : List String
  agent_optimizations : List LearningItem
  business_insights : List LearningItem
  deriving Repr, DecidableEq

/-- Embeds `SuperAgent._identify_customer_patterns`
(src/services/super_agent.py:739-803): no valid customer id, or at most one
prior conversation, gives no patterns; otherwise a category-preference
pattern (statistical mode), a sentiment-trend pattern (mean of mapped
sentiments) and a frequent-tag pattern (top 3 by count). -/
def identify_customer_patterns (db : Db) (conv : Conversation) :
    List PatternId :=
  if conv.customer_id = "" || !is_valid_uuid conv.customer_id then []
  else
    let prev := sortOnDesc (fun c => c.created_at)
      (db.conversations.filter (fun c => c.customer_id = conv.customer_id))
    if prev.length ≤ 1 then []
    else
      let categories := (prev.map (fun c => c.category)).filter (fun c => c ≠ "")
      let catPat :=
        if !categories.isEmpty then
          [{ ptype := "category_preference",
             pattern := "Cliente prefiere categoría: " ++ mostCommon categories,
             confidence := pf 4 5, data_points := categories.length : PatternId }]
        else []
      let sentiments := (prev.map (fun c => c.sentiment)).filter (fun s => s ≠ "")
      let sentPat :=
        if !sentiments.isEmpty then
          let avg : ℚ :=
            (sentiments.map (fun s =>
              if s = "positive" then pf 1 1
              else if s = "negative" then pf (-1) 1 else 0)).sum /
            mkRat sentiments.length 1
          [{ ptype := "sentiment_trend",
             pattern := "Tendencia de sentimiento: " ++ ratRepr avg,
             confidence := pf 7 10, data_points := sentiments.length : PatternId }]
        else []
      let all_tags := prev.flatMap (fun c => c.tags)
      let tagPat :=
        if !all_tags.isEmpty then
          [{ ptype := "tag_preference",
             pattern := "Tags más frecuentes: " ++
               String.intercalate ", " (mostCommon3 all_tags),
             confidence := pf 3 5, data_points := all_tags.length : PatternId }]
        else []
      catPat ++ sentPat ++ tagPat

/-- Embeds `SuperAgent._identify_conversation_patterns`
(src/services/super_agent.py:805-841): one pattern each for a present
category, non-empty tags and a present sentiment (confidences
0.9/0.8/0.7). -/
def identify_conversation_patterns (conv : Conversation) : List PatternId :=
  (if conv.category ≠ "" then
    [{ ptype := "conversation_category",
       pattern := "Categoría de conversación: " ++ conv.category,
       confidence := pf 9 10, data_points := 1 : PatternId }]
  else []) ++
  (if !conv.tags.isEmpty then
    [{ ptype := "conversation_tags",
       pattern := "Tags utilizados: " ++ String.intercalate ", " conv.tags,
       confidence := pf 4 5, data_points := conv.tags.length : PatternId }]
  else []) ++
  (if conv.sentiment ≠ "" then
    [{ ptype := "conversation_sentiment",
       pattern := "Sentimiento detectado: " ++ conv.sentiment,
       confidence := pf 7 10, data_points := 1 : PatternId }]
  else [])

/-- Embeds `SuperAgent._identify_agent_patterns`
(src/services/super_agent.py:843-869): a participation pattern when agents
participated, a confidence pattern when the synthesis confidence is truthy
(`0.0` is falsy). -/
def identify_agent_patterns (synthesis : Synthesis) : List PatternId :=
  (if !synthesis.agent_participation.isEmpty then
    [{ ptype := "agent_participation",
       pattern := "Agentes involucrados: " ++
         String.intercalate ", " synthesis.agent_participation,
       confidence := pf 4 5,
       data_points := synthesis.agent_participation.length : PatternId }]
  else []) ++
  (if synthesis.confidence_score ≠ 0 then
    [{ ptype := "overall_confidence",
       pattern := "Confianza general del sistema: " ++
         ratRepr synthesis.confidence_score,
       confidence := pf 7 10, data_points := 1 : PatternId }]
  else [])

/-- Embeds `SuperAgent._identify_business_patterns`
(src/services/super_agent.py:871-900): the risk dictionary is always present
and truthy (it is the non-empty constant of `_assess_overall_risk`), so a
`business_risk` pattern is always emitted; an opportunity pattern is emitted
when opportunities were identified. -/
def identify_business_patterns (_conv : Conversation) (synthesis : Synthesis) :
    List PatternId :=
  [{ ptype := "business_risk",
     pattern := "Nivel de riesgo: " ++ synthesis.risk_assessment.level ++
       " (score: " ++ ratRepr synthesis.risk_assessment.score ++ ")",
     confidence := pf 3 5, data_points := 1 : PatternId }] ++
  (if !synthesis.opportunity_identification.isEmpty then
    [{ ptype := "business_opportunity",
       pattern := "Oportunidades identificadas: " ++
         toString synthesis.opportunity_identification.length,
       confidence := pf 7 10,
       data_points := synthesis.opportunity_identification.length : PatternId }]
  else [])

/-- Embeds `SuperAgent._identify_patterns` (src/services/super_agent.py:710-737). -/
def identify_patterns (db : Db) (conv : Conversation) (synthesis : Synthesis) :
    List PatternId :=
  identify_customer_patterns db conv ++
  identify_conversation_patterns conv ++
  identify_agent_patterns synthesis ++
  identify_business_patterns conv synthesis

/-- Embeds `SuperAgent._learn_from_agent_performance`
(src/services/super_agent.py:1366-1402). -/
def learn_from_agent_performance (synthesis : Synthesis) : List LearningItem :=
  (if !synthesis.agent_participation.isEmpty then
    [{ ltype := "agent_participation_learning",
       content := "Agentes involucrados: " ++
         String.intercalate ", " synthesis.agent_participation,
       confidence := pf 4 5, category := "agent_learning" : LearningItem }]
  else []) ++
  (if synthesis.confidence_score ≠ 0 then
    if pf 4 5 < synthesis.confidence_score then
      [{ ltype := "high_confidence_learning",
         content := "Alta confianza del sistema: " ++
           ratRepr synthesis.confidence_score,
         confidence := pf 9 10, category := "system_learning" : LearningItem }]
    else if synthesis.confidence_score < pf 1 2 then
      [{ ltype := "low_confidence_learning",
         content := "Baja confianza del sistema: " ++
           ratRepr synthesis.confidence_score ++ " - requiere optimización",
         confidence := pf 7 10, category := "system_learning" : LearningItem }]
    else []
  else [])

/-- Embeds `SuperAgent._extract_business_insights`
(src/services/super_agent.py:1404-1442). -/
def extract_business_insights (conv : Conversation) (synthesis : Synthesis) :
    List LearningItem :=
  (if conv.category ≠ "" then
    [{ ltype := "category_insight",
       content := "Conversación de categoría " ++ conv.category ++
         " procesada exitosamente",
       confidence := pf 4 5, category := "business_insight" : LearningItem }]
  else []) ++
  (if conv.sentiment ≠ "" then
    [{ ltype := "sentiment_insight",
       content := "Cliente con sentimiento " ++ conv.sentiment ++
         " - requiere atención especial",
       confidence := pf 7 10, category := "customer_insight" : LearningItem }]
  else []) ++
  (if synthesis.confidence_score ≠ 0 && pf 4 5 < synthesis.confidence_score then
    [{ ltype := "performance_insight",
       content := "Sistema funcionando con alta eficiencia: " ++
         ratRepr synthesis.confidence_score,
       confidence := pf 9 10, category := "system_insight" : LearningItem }]
  else [])

/-- Embeds `SuperAgent._has_significant_learning`
(src/services/super_agent.py:1444-1466): more than 2 patterns, or more than
1 agent optimization, or more than 2 business insights. -/
def has_significant_learning (outcome : LearningOutcome) : Bool :=
  2 < outcome.patterns_identified.length ||
  1 < outcome.agent_optimizations.length ||
  2 < outcome.business_insights.length

/-! ## Aggregate metrics and coordinator state -/

/-- The in-memory `aggregated_metrics` dictionary
(src/services/super_agent.py:62-68). -/
structure AggregatedMetrics where
  total_conversations : Nat
  success_rate : ℚ
  average_response_time : ℚ
  customer_satisfaction : ℚ
  conversion_rate : ℚ
  deriving Repr, DecidableEq

/-- Embeds `aggregated_metrics` at construction and after the reset route: all
zero. -/
def initAggregatedMetrics : AggregatedMetrics :=
  { total_conversations := 0, success_rate := 0, average_response_time := 0,
    customer_satisfaction := 0, conversion_rate := 0 }

/-- Embeds `SuperAgent._update_global_metrics`
(src/services/super_agent.py:1596-1610): increment
`total_conversations` by 1; when the synthesis confidence is truthy, the
success rate becomes the average of the old rate and that confidence. -/
def update_global_metrics (m : AggregatedMetrics) (synthesis : Synthesis) :
    AggregatedMetrics :=
  let m := { m with total_conversations := m.total_conversations + 1 }
  if synthesis.confidence_score ≠ 0 then
    { m with success_rate := (m.success_rate + synthesis.confidence_score) / pf 2 1 }
  else m

/-- Embeds `SuperAgent._update_metrics_in_db`
(src/services/super_agent.py:2185-2209): append one metric row
(`synthesis.get("confidence_score", 0.8)` — the key is always present on a
synthesis dictionary, so its value is used). -/
def update_metrics_in_db (db : Db) (conv : Conversation)
    (synthesis : Synthesis) : Db :=
  { db with agent_metrics := db.agent_metrics ++
      [{ agent_id := "super_agent", conversation_id := conv.id,
         success_rate := synthesis.confidence_score, response_time := 0,
         customer_satisfaction := pf 4 5 }] }

/-- The mutable state of the `SuperAgent` singleton relevant to the engine:
its `global_memory`, `aggregated_metrics`, optimization bookkeeping, the
database id it registered under, and (threaded for the shallow embedding)
the persistent store reached through `get_session()`. -/
structure SAState where
  global_memory : GlobalMemory
  aggregated_metrics : AggregatedMetrics
  last_optimization : Nat
  is_learning : Bool
  optimization_count : Nat
  db_id : Option String
  db : Db
  deriving Repr, DecidableEq

/-- Embeds `SuperAgent._update_global_memory`
(src/services/super_agent.py:1938-1961): record the conversation in
`conversation_trends`, then `_update_metrics_in_db`, then
`_update_global_metrics`. -/
def update_global_memory (st : SAState) (conv : Conversation)
    (synthesis : Synthesis) (now : Nat) : SAState :=
  let trend : TrendEntry :=
    { category := conv.category, tags := conv.tags, timestamp := now,
      synthesis := synthesis }
  let mem := { st.global_memory with
    conversation_trends := setAssoc st.global_memory.conversation_trends conv.id trend }
  let st := { st with global_memory := mem }
  let st := { st with db := update_metrics_in_db st.db conv synthesis }
  { st with aggregated_metrics :=
      update_global_metrics st.aggregated_metrics synthesis }

/-- Embeds `SuperAgent._trigger_learning_cycle`
(src/services/super_agent.py:902-936): the optimization sub-steps are
no-op stubs; one cycle record is appended and `is_learning` ends `False`. -/
def trigger_learning_cycle (st : SAState) (outcome : LearningOutcome)
    (now : Nat) : SAState :=
  let cycle : LearningCycle :=
    { timestamp := now, conversations_analyzed := 1,
      patterns_identified := outcome.patterns_identified.length,
      optimizations_applied := outcome.agent_optimizations.length,
      insights_generated := outcome.business_insights.length }
  { st with
    global_memory := { st.global_memory with
      learning_cycles := st.global_memory.learning_cycles ++ [cycle] },
    is_learning := false }

/-- Embeds `SuperAgent._sync_memory_to_database`
(src/services/super_agent.py:2211-2272): with a registered database id and a
matching row, overwrite the persisted aggregates from the in-memory state
(no-op otherwise). -/
def sync_memory_to_database (st : SAState) (_now : Nat) : SAState :=
  match st.db_id with
  | none => st
  | some did =>
    if st.db.super_agents.any (fun r => r.id = did) then
      let lastCycle := (st.global_memory.learning_cycles.getLast?).map
        (fun c => c.timestamp)
      let lastOpt := (st.global_memory.optimization_history.getLast?).map
        (fun o => o.timestamp)
      let rows := st.db.super_agents.map
          (fun r =>
            if r.id = did then
              { r with
                last_learning_cycle := lastCycle,
                last_optimization := lastOpt,
                total_conversations_processed :=
                  st.aggregated_metrics.total_conversations,
                total_learnings_generated :=
                  st.global_memory.learning_cycles.length,
                success_rate := st.aggregated_metrics.success_rate }
            else r)
      { st with db := { st.db with super_agents := rows } }
    else st

/-- Embeds `SuperAgent._learn_from_conversation`
(src/services/super_agent.py:667-708): build the learning outcome from the
pattern/optimization/insight extractors, update the global memory (which
also updates metrics), run a learning cycle when significant, and sync to
the database. -/
def learn_from_conversation (st : SAState) (conv : Conversation)
    (synthesis : Synthesis) (now : Nat) : LearningOutcome × SAState :=
  let patterns := identify_patterns st.db conv synthesis
  let agent_learnings := learn_from_agent_performance synthesis
  let business_insights := extract_business_insights conv synthesis
  let outcome : LearningOutcome :=
    { conversation_id := conv.id, learning_timestamp := now,
      patterns_identified := patterns, system_improvements := [],
      agent_optimizations := agent_learnings,
      business_insights := business_insights }
  let st := update_global_memory st conv synthesis now
  let st :=
    if has_significant_learning outcome then
      trigger_learning_cycle st outcome now
    else st
  let st := sync_memory_to_database st now
  (outcome, st)

/-! ## Persistence Synchronizer

`_save_learnings_to_db` and its helpers
(src/services/super_agent.py:1963-2183). -/

/-- Embeds `conversation.category or "general"`. -/
def categoryOrGeneral (conv : Conversation) : String :=
  if conv.category = "" then "general" else conv.category

/-- Embeds `SuperAgent._save_tag_learnings_to_db`
(src/services/super_agent.py:2037-2064): one `tag_learning` row per tag,
first three tags only.  (The source quotes the tag name; the quotes are
omitted here.) -/
def save_tag_learnings_to_db (db : Db) (conv : Conversation) (now : Nat) : Db :=
  { db with agent_learnings := db.agent_learnings ++
      (conv.tags.take 3).map (fun tag =>
        { agent_type := "super_agent", learning_type := "tag_learning",
          content := "Super Agente aprendió del tag " ++ tag ++
            " en conversación " ++ strTake conv.id 8 ++ "...",
          confidence_score := pf 7 10, category := categoryOrGeneral conv,
          created_at := now }) }

/-- Embeds `SuperAgent._save_pattern_learnings_to_db`
(src/services/super_agent.py:2066-2097): one `pattern_learning` row per
identified pattern, first five only, content truncated to 50 characters. -/
def save_pattern_learnings_to_db (db : Db) (conv : Conversation)
    (outcome : LearningOutcome) (now : Nat) : Db :=
  { db with agent_learnings := db.agent_learnings ++
      (outcome.patterns_identified.take 5).map (fun p =>
        { agent_type := "super_agent", learning_type := "pattern_learning",
          content := "Super Agente identificó patrón: " ++ p.ptype ++ " - " ++
            strTake p.pattern 50 ++ "...",
          confidence_score := p.confidence, category := categoryOrGeneral conv,
          created_at := now }) }

/-- Embeds `SuperAgent._save_business_insights_to_db`
(src/services/super_agent.py:2099-2129): one `business_insight` row per
insight, first three only. -/
def save_business_insights_to_db (db : Db) (conv : Conversation)
    (outcome : LearningOutcome) (now : Nat) : Db :=
  { db with agent_learnings := db.agent_learnings ++
      (outcome.business_insights.take 3).map (fun i =>
        { agent_type := "super_agent", learning_type := "business_insight",
          content := "Super Agente identificó insight: " ++ i.ltype ++ " - " ++
            strTake i.content 50 ++ "...",
          confidence_score := i.confidence, category := categoryOrGeneral conv,
          created_at := now }) }

/-- Embeds `SuperAgent._update_super_agent_metrics`
(src/services/super_agent.py:2131-2183): with a registered id and a matching
row, increment the persisted totals; `learning_outcome.get
("confidence_score", 0.8)` is `0.8` (the outcome dictionary has no such
key), and the success-rate update is guarded by the truthiness of the
in-memory success rate.  (In the source the subsequent
`super_agent_record.metadata.update(...)` touches the SQLAlchemy metadata
class attribute; no theorem below observes this table.) -/
def update_super_agent_metrics (st : SAState) (_conv : Conversation)
    (outcome : LearningOutcome) (_now : Nat) : SAState :=
  match st.db_id with
  | none => st
  | some did =>
    if st.db.super_agents.any (fun r => r.id = did) then
      let rows := st.db.super_agents.map
          (fun r =>
            if r.id = did then
              let r := { r with
                total_conversations_processed :=
                  r.total_conversations_processed + 1,
                total_learnings_generated :=
                  r.total_learnings_generated +
                  outcome.patterns_identified.length +
                  outcome.agent_optimizations.length +
                  outcome.business_insights.length }
              if st.aggregated_metrics.success_rate ≠ 0 then
                { r with success_rate := (r.success_rate + pf 4 5) / pf 2 1 }
              else r
            else r)
      { st with db := { st.db with super_agents := rows } }
    else st

/-- Embeds `SuperAgent._save_learnings_to_db`
(src/services/super_agent.py:1963-2035).  Duplicate detection: an existing
(`super_agent`, `conversation_learning`) row whose `content` contains the
full conversation id short-circuits the save.  The inserted content,
however, only embeds the first 8 characters of the id
(`conversation.id[:8]`). -/
def save_learnings_to_db (st : SAState) (conv : Conversation)
    (outcome : LearningOutcome) (now : Nat) : SAState :=
  let db := st.db
  let duplicate := db.agent_learnings.any (fun l =>
    l.agent_type = "super_agent" &&
    l.learning_type = "conversation_learning" &&
    strContains l.content conv.id)
  if duplicate then st
  else
    let patterns_count := outcome.patterns_identified.length
    let agent_optimizations := outcome.agent_optimizations.length
    let business_insights := outcome.business_insights.length
    let content := "Super Agente aprendió de conversación " ++
      strTake conv.id 8 ++ "... - " ++ toString patterns_count ++
      " patrones, " ++ toString agent_optimizations ++
      " optimizaciones, " ++ toString business_insights ++ " insights"
    let db := { db with agent_learnings := db.agent_learnings ++
        [{ agent_type := "super_agent",
           learning_type := "conversation_learning", content := content,
           confidence_score := pf 4 5, category := categoryOrGeneral conv,
           created_at := now }] }
    let db := if !conv.tags.isEmpty then save_tag_learnings_to_db db conv now
      else db
    let db := save_pattern_learnings_to_db db conv outcome now
    let db := save_business_insights_to_db db conv outcome now
    update_super_agent_metrics { st with db := db } conv outcome now

/-! ## Context analysis

`_analyze_conversation_context` and its read-only helpers
(src/services/super_agent.py:208-266, 1116-1254).  The nested per-customer
analyses (`_extract_preferred_products`, `_analyze_communication_style`,
risk/opportunity scores, complexity, temporal factors) are constant stubs in
the source and appear here with their constant values. -/

/-- The shapes `_analyze_customer_profile` can return. -/
inductive CustomerProfileInfo where
  /-- Missing/invalid customer id: the basic new-customer dictionary. -/
  | newCustomer (customer_id : String)
  /-- Valid id but no profile row: `{"status": "new_customer"}`. -/
  | notFound
  /-- Existing customer with the stubbed pattern scores (0.5 / 0.5). -/
  | existing (customer_id : String) (risk_score opportunity_score : ℚ)
  deriving Repr, DecidableEq

/-- One entry of `_get_conversation_history`'s result. -/
structure ConversationHistoryItem where
  id : String
  category : String
  tags : List String
  sentiment : String
  created_at : Nat
  status : String
  deriving Repr, DecidableEq

/-- The context dictionary from `_get_business_context`; keys are set only
under the corresponding non-emptiness conditions. -/
structure BusinessContext where
  total_metrics : Option Nat
  average_success_rate : Option ℚ
  total_learnings : Option Nat
  recent_learnings : Option (List AgentLearningInfo)
  deriving Repr, DecidableEq

/-- Embeds `SuperAgent._analyze_customer_profile`
(src/services/super_agent.py:220-257). -/
def analyze_customer_profile (db : Db) (customer_id : String) :
    CustomerProfileInfo :=
  if customer_id = "" || !is_valid_uuid customer_id then
    .newCustomer customer_id
  else if db.customer_profiles.contains customer_id then
    .existing customer_id (pf 1 2) (pf 1 2)
  else .notFound

/-- Embeds `SuperAgent._get_conversation_history`
(src/services/super_agent.py:1145-1176). -/
def get_conversation_history (db : Db) (customer_id : String) :
    List ConversationHistoryItem :=
  if customer_id = "" || !is_valid_uuid customer_id then []
  else
    ((sortOnDesc (fun c => c.created_at)
        (db.conversations.filter (fun c => c.customer_id = customer_id))).take
      10).map (fun c =>
      { id := c.id, category := c.category, tags := c.tags,
        sentiment := c.sentiment, created_at := c.created_at,
        status := c.status })

/-- Embeds `SuperAgent._get_business_context`
(src/services/super_agent.py:1178-1218). -/
def get_business_context (db : Db) : BusinessContext :=
  let base : BusinessContext :=
    { total_metrics := none, average_success_rate := none,
      total_learnings := none, recent_learnings := none }
  let base :=
    if !db.agent_metrics.isEmpty then
      { base with
        total_metrics := some db.agent_metrics.length,
        average_success_rate := some
          ((db.agent_metrics.map (fun m => m.success_rate)).sum /
            mkRat db.agent_metrics.length 1) }
    else base
  if !db.agent_learnings.isEmpty then
    { base with
      total_learnings := some db.agent_learnings.length,
      recent_learnings := some
        (((db.agent_learnings.reverse.take 5).reverse).map (fun l =>
          { agent_type := l.agent_type, learning_type := l.learning_type,
            content := l.content, confidence_score := l.confidence_score,
            category := l.category, created_at := l.created_at })) }
  else base

/-- The context dictionary of `_analyze_conversation_context`
(src/services/super_agent.py:208-218); the temporal-factors stub (`{}`) is
omitted, the complexity stub is its constant `0.5`. -/
structure ContextInfo where
  customer_profile : CustomerProfileInfo
  conversation_history : List ConversationHistoryItem
  business_context : BusinessContext
  complexity_score : ℚ
  deriving Repr, DecidableEq

/-- Embeds `SuperAgent._analyze_conversation_context`
(src/services/super_agent.py:208-218). -/
def analyze_conversation_context (db : Db) (conv : Conversation) :
    ContextInfo :=
  { customer_profile := analyze_customer_profile db conv.customer_id,
    conversation_history := get_conversation_history db conv.customer_id,
    business_context := get_business_context db,
    complexity_score := pf 1 2 }

/-! ## The conversation-processing pipeline

`SuperAgent.process_conversation` (src/services/super_agent.py:146-206): ten
sequential steps inside one `try/except` whose handler returns
`{"error": str(e)}`.  To make the exception path expressible in the shallow
embedding, each numbered step can be made to raise by a fault oracle
(modelling "an internal step raises"); with the `noFaults` oracle each step
is exactly its concrete embedding above. -/

/-- The numbered steps of `process_conversation` (step 6 of the source is a
log statement and has no effect). -/
inductive Step where
  | analyzeContext
  | applyRouting
  | routeAgents
  | synthesize
  | learn
  | saveLearnings
  | updateMetricsDb
  | updateMemory
  | checkSignificant
  deriving Repr, DecidableEq

/-- A fault oracle: which step raises, and with which message. -/
def Faults : Type := Step → Option String

/-- The oracle under which no step raises. -/
def noFaults : Faults := fun _ => none

/-- State-threading computations that can raise (the state at the raise
point is kept, as Python mutations before an exception persist). -/
def StateE (α : Type) : Type := SAState → Except String α × SAState

/-- Embeds `pure` for `StateE`. -/
def pureE {α : Type} (a : α) : StateE α := fun s => (Except.ok a, s)

/-- Embeds `bind` for `StateE`. -/
def bindE {α β : Type} (m : StateE α) (k : α → StateE β) : StateE β := fun s =>
  match m s with
  | (Except.ok a, s') => k a s'
  | (Except.error e, s') => (Except.error e, s')

/-- Read a value from the state. -/
def getE {α : Type} (g : SAState → α) : StateE α := fun s => (Except.ok (g s), s)

/-- Update the state and return a value. -/
def modifyGetE {α : Type} (g : SAState → α × SAState) : StateE α := fun s =>
  let p := g s
  (Except.ok p.1, p.2)

/-- Update the state. -/
def modifyE (g : SAState → SAState) : StateE Unit := fun s =>
  (Except.ok (), g s)

/-- Run one pipeline step under the fault oracle: if the oracle faults the
step, it raises with the oracle's message and the step body does not run. -/
def runStep {α : Type} (f : Faults) (step : Step) (m : StateE α) : StateE α :=
  fun s =>
    match f step with
    | some msg => (Except.error msg, s)
    | none => m s

/-- The success dictionary returned by `process_conversation`
(src/services/super_agent.py:195-202). -/
structure ProcessResult where
  conversation_id : String
  intelligent_routing : RoutingDecision
  agent_results : List (String × AgentResult)
  synthesis : Synthesis
  learning_outcome : LearningOutcome
  optimizations_applied : Bool
  deriving Repr, DecidableEq

/-- What `process_conversation` returns to its caller: the full result
dictionary, or the `{"error": str(e)}` dictionary built by the `except`
handler. -/
inductive ProcessOutput where
  | ok (r : ProcessResult)
  | err (error : String)
  deriving Repr, DecidableEq

/-- Embeds `SuperAgent.process_conversation` (src/services/super_agent.py:146-206). -/
def process_conversation (f : Faults) (conv : Conversation) (now : Nat) :
    SAState → ProcessOutput × SAState := fun s0 =>
  let pipeline : StateE ProcessResult :=
    bindE (runStep f .analyzeContext
      (getE (fun s => analyze_conversation_context s.db conv)))
      (fun _initial_analysis =>
    bindE (runStep f .applyRouting
      (modifyGetE (fun s =>
        let p := apply_learnings_for_routing s.db conv s.global_memory now
        (p.1, { s with global_memory := p.2 }))))
      (fun intelligent_routing =>
    bindE (runStep f .routeAgents
      (pureE (route_to_specialized_agents_with_learnings conv
        intelligent_routing now)))
      (fun agent_results =>
    bindE (runStep f .synthesize
      (pureE (synthesize_agent_results agent_results conv now)))
      (fun synthesis =>
    bindE (runStep f .learn
      (modifyGetE (fun s => learn_from_conversation s conv synthesis now)))
      (fun learning_outcome =>
    bindE (runStep f .saveLearnings
      (modifyE (fun s => save_learnings_to_db s conv learning_outcome now)))
      (fun _ =>
    bindE (runStep f .updateMetricsDb
      (modifyE (fun s =>
        { s with db := update_metrics_in_db s.db conv synthesis })))
      (fun _ =>
    bindE (runStep f .updateMemory
      (modifyE (fun s => update_global_memory s conv synthesis now)))
      (fun _ =>
    bindE (runStep f .checkSignificant
      (modifyE (fun s =>
        if has_significant_learning learning_outcome then
          trigger_learning_cycle s learning_outcome now
        else s)))
      (fun _ =>
    pureE
      { conversation_id := conv.id,
        intelligent_routing := intelligent_routing,
        agent_results := agent_results,
        synthesis := synthesis,
        learning_outcome := learning_outcome,
        optimizations_applied := intelligent_routing.optimization_applied })))))))))
  match pipeline s0 with
  | (Except.ok r, s') => (ProcessOutput.ok r, s')
  | (Except.error e, s') => (ProcessOutput.err e, s')

/-! ## Optimization Scheduler

`_run_optimization_cycle` and its helpers
(src/services/super_agent.py:938-985, 1484-1594) and the
`POST /super-agent/optimize` route (src/routes/super_agent.py:86-103). -/

/-- A system optimization proposed during an optimization cycle. -/
structure SysOptimization where
  otype : String
  description : String
  priority : String
  deriving Repr, DecidableEq

/-- Embeds `SuperAgent._analyze_system_performance`
(src/services/super_agent.py:1484-1496). -/
def analyze_system_performance (st : SAState) : PerformanceAnalysis :=
  { total_conversations := st.aggregated_metrics.total_conversations,
    success_rate := st.aggregated_metrics.success_rate,
    learning_cycles := st.global_memory.learning_cycles.length,
    optimization_count := st.optimization_count }

/-- Embeds `SuperAgent._optimize_agent_performance`
(src/services/super_agent.py:1498-1514). -/
def optimize_agent_performance (pa : PerformanceAnalysis) :
    List SysOptimization :=
  if pa.success_rate < pf 7 10 then
    [{ otype := "agent_performance_optimization",
       description := "Baja tasa de éxito - optimizando parámetros de agentes",
       priority := "high" }]
  else []

/-- Embeds `SuperAgent._optimize_conversation_routing`
(src/services/super_agent.py:1516-1532). -/
def optimize_conversation_routing (pa : PerformanceAnalysis) :
    List SysOptimization :=
  if 10 < pa.learning_cycles then
    [{ otype := "routing_optimization",
       description := "Muchos ciclos de aprendizaje - optimizando enrutamiento",
       priority := "medium" }]
  else []

/-- Embeds `SuperAgent._optimize_memory_usage`
(src/services/super_agent.py:1534-1550). -/
def optimize_memory_usage (st : SAState) : List SysOptimization :=
  if 1000 < st.global_memory.conversation_trends.length then
    [{ otype := "memory_cleanup",
       description := "Memoria grande - limpiando datos antiguos",
       priority := "low" }]
  else []

/-- Embeds `SuperAgent._estimate_optimization_impact`
(src/services/super_agent.py:1567-1573): the constant `0.15`. -/
def estimate_optimization_impact : ℚ := pf 3 20

/-- Embeds `SuperAgent._run_optimization_cycle`
(src/services/super_agent.py:938-985): analyze, collect the three
optimization lists (`_apply_system_optimizations` only logs), append one
record to `optimization_history`, stamp `last_optimization` and bump the
count.  There is no time guard in this function. -/
def run_optimization_cycle (st : SAState) (now : Nat) : SAState :=
  let pa := analyze_system_performance st
  let agent_optimizations := optimize_agent_performance pa
  let routing_optimizations := optimize_conversation_routing pa
  let memory_optimizations := optimize_memory_usage st
  let record : OptimizationRecord :=
    { timestamp := now, performance_metrics := pa,
      agents_applied := agent_optimizations.length,
      routing_applied := routing_optimizations.length,
      memory_applied := memory_optimizations.length,
      expected_improvement := estimate_optimization_impact }
  { st with
    global_memory := { st.global_memory with
      optimization_history := st.global_memory.optimization_history ++ [record] },
    last_optimization := now,
    optimization_count := st.optimization_count + 1 }

/-- The `POST /super-agent/optimize` route `trigger_optimization_cycle`
(src/routes/super_agent.py:86-103): it calls
`super_agent._run_optimization_cycle()` unconditionally — no time guard is
consulted on this path. -/
def trigger_optimization_cycle (st : SAState) (now : Nat) : SAState :=
  run_optimization_cycle st now

/-- Embeds `SuperAgent._should_optimize` (src/services/super_agent.py:1575-1581):
the time guard `(now - last_optimization).total_seconds() / 3600 >=
optimization_frequency` with frequency 24 hours; over the integral
second-resolution timestamps of this model the float inequality is exactly
`86400 ≤ now - last_optimization`.  No caller in the source invokes it. -/
def should_optimize (st : SAState) (now : Nat) : Bool :=
  decide (24 * 3600 ≤ now - st.last_optimization)

/-! ## Per-agent learning memory (src/services/agents.py)

`BaseAgent._update_local_memory` and `_update_performance_metrics`
(src/services/agents.py:250-294).  The learning outcomes appended are built
by `BaseAgent.learn_from_conversation`; their content is arbitrary for the
buffer invariant, hence the quantification below. -/

/-- A pattern from `BaseAgent._identify_conversation_patterns`. -/
structure AgentPattern where
  ptype : String
  pattern : String
  strength : ℚ
  frequency : Nat
  deriving Repr, DecidableEq

/-- A suggestion from `BaseAgent._generate_improvement_suggestions`. -/
structure ImprovementSuggestion where
  stype : String
  suggestion : String
  priority : String
  confidence : ℚ
  deriving Repr, DecidableEq

/-- An adjustment from `BaseAgent._adjust_confidence_levels`. -/
structure ConfidenceAdjustment where
  atype : String
  reason : String
  adjustment : ℚ
  new_confidence : ℚ
  deriving Repr, DecidableEq

/-- The learning-outcome dictionary of `BaseAgent.learn_from_conversation`
(the fields `_update_local_memory` reads). -/
structure AgentLearningOutcome where
  agent_type : String
  conversation_id : String
  patterns_identified : List AgentPattern
  improvements_suggested : List ImprovementSuggestion
  confidence_adjustments : List ConfidenceAdjustment
  deriving Repr, DecidableEq

/-- An entry of `BaseAgent.learning_history`. -/
structure LearningHistoryEntry where
  timestamp : Nat
  conversation_id : String
  patterns : List AgentPattern
  improvements : List ImprovementSuggestion
  confidence_adjustments : List ConfidenceAdjustment
  deriving Repr, DecidableEq

/-- The history entry appended by `_update_local_memory`. -/
def mk_history_entry (outcome : AgentLearningOutcome) (now : Nat) :
    LearningHistoryEntry :=
  { timestamp := now, conversation_id := outcome.conversation_id,
    patterns := outcome.patterns_identified,
    improvements := outcome.improvements_suggested,
    confidence_adjustments := outcome.confidence_adjustments }

/-- The mutable per-agent state `_update_local_memory` touches: the learning
history and the `performance_metrics` counters (a missing counter key is its
zero default). -/
structure BaseAgentState where
  learning_history : List LearningHistoryEntry
  learning_rate : ℚ
  patterns_identified_count : Nat
  improvements_suggested_count : Nat
  deriving Repr, DecidableEq

/-- Embeds `BaseAgent._update_performance_metrics`
(src/services/agents.py:272-294): guarded by the truthiness of the
conversation id. -/
def update_performance_metrics (st : BaseAgentState)
    (outcome : AgentLearningOutcome) : BaseAgentState :=
  if outcome.conversation_id ≠ "" then
    { st with
      patterns_identified_count :=
        st.patterns_identified_count + outcome.patterns_identified.length,
      improvements_suggested_count :=
        st.improvements_suggested_count + outcome.improvements_suggested.length }
  else st

/-- Embeds `BaseAgent._update_local_memory` (src/services/agents.py:250-270):
append one history entry; if the history now exceeds 100 entries keep only
the last 100 (`self.learning_history[-100:]`); then update the performance
metrics. -/
def update_local_memory (st : BaseAgentState)
    (outcome : AgentLearningOutcome) (now : Nat) : BaseAgentState :=
  let hist := st.learning_history ++ [mk_history_entry outcome now]
  let hist := if 100 < hist.length then hist.drop (hist.length - 100) else hist
  update_performance_metrics { st with learning_history := hist } outcome

/-! ## Spec-side definition for the synthesis confidence (refinement check)

The specification states the overall confidence is "the mean of
participating non-error confidences, default 0.5 if none"; this definition
follows those words, for comparison with the source's
`calculate_overall_confidence`. -/

/-- Modelled from the spec (§4.4): the mean of the confidence values of the
non-error agent results, `0.5` when none participate. -/
def spec_overall_confidence (agent_results : List (String × AgentResult)) : ℚ :=
  let cs := agent_results.filterMap (fun p =>
    match p.2 with
    | .ok d => some d.confidence_score
    | .err _ => none)
  if cs.isEmpty then pf 1 2 else cs.sum / mkRat cs.length 1

/-! ## Initial state and concrete run inputs -/

/-- The state of the freshly constructed `SuperAgent` singleton
(`__init__`, src/services/super_agent.py:44-87): empty global memory and
metrics, `last_optimization` stamped with the creation instant, and the
database id assigned by `_register_in_database` (`none` when registration
failed). -/
def initSuperAgentState (db : Db) (db_id : Option String) (created : Nat) :
    SAState :=
  { global_memory := initGlobalMemory,
    aggregated_metrics := initAggregatedMetrics,
    last_optimization := created, is_learning := false,
    optimization_count := 0, db_id := db_id, db := db }

/-- Number of persisted learning rows with the given
(`agent_type`, `learning_type`) pair. -/
def countLearningRows (db : Db) (agent_type learning_type : String) : Nat :=
  (db.agent_learnings.filter (fun l =>
    l.agent_type = agent_type && l.learning_type = learning_type)).length

/-- A conversation with a 36-character (UUID-shaped) id, no tags, no
category and no customer reference, for concrete runs. -/
def convLongId : Conversation :=
  { id := "11111111-2222-3333-4444-555555555555", customer_id := "",
    category := "", tags := [], sentiment := "", content := "hola" }

/-- A `ventas` conversation with no customer reference, for concrete runs. -/
def convVentas : Conversation :=
  { id := "conv-1", customer_id := "", category := "ventas", tags := [],
    sentiment := "", content := "hola" }

/-- A conversation whose customer reference is not a UUID. -/
def convAnon : Conversation :=
  { id := "conv-2", customer_id := "not-a-uuid", category := "soporte",
    tags := [], sentiment := "", content := "" }

/-- A store holding one conversation row for the non-UUID customer. -/
def dbWithCustomerRow : Db :=
  { emptyDb with conversations :=
      [{ id := "conv-0", category := "soporte", sentiment := "positive",
         tags := ["error"], customer_id := "not-a-uuid", status := "active",
         created_at := 10 }] }

/-- A concrete per-agent learning-history entry. -/
def histEntry0 : LearningHistoryEntry :=
  { timestamp := 0, conversation_id := "conv-0", patterns := [],
    improvements := [], confidence_adjustments := [] }

/-- A concrete per-agent learning outcome. -/
def agentOutcome0 : AgentLearningOutcome :=
  { agent_type := "sales", conversation_id := "conv-9",
    patterns_identified := [], improvements_suggested := [],
    confidence_adjustments := [] }

/-- A per-agent state whose history is exactly at the 100-entry capacity. -/
def agentStateFull : BaseAgentState :=
  { learning_history := List.replicate 100 histEntry0, learning_rate := 0,
    patterns_identified_count := 0, improvements_suggested_count := 0 }

/-! ## Helper lemmas -/

/-- The recommended-agents list produced by
`_make_intelligent_routing_decision` is never empty: either at least two
agents were collected, or `"coordinator"` was appended; deduplication
preserves membership. -/
theorem make_intelligent_routing_decision_recommended_ne_nil
    (conv : Conversation) (sp : List SimilarPattern)
    (al : List AgentLearningInfo) (cp : List CustomerPattern) :
    (make_intelligent_routing_decision conv sp al cp).recommended_agents ≠ [] := by
  simp only [make_intelligent_routing_decision]
  split
  · intro h
    have : "coordinator" ∈ ((collectRecommended sp al cp).1 ++ ["coordinator"]).dedup :=
      List.mem_dedup.mpr (by simp)
    rw [h] at this
    exact List.not_mem_nil _ this
  · next hlen =>
    intro h
    rcases hnil : (collectRecommended sp al cp).1 with _ | ⟨a, rest⟩
    · rw [hnil] at hlen; simp at hlen
    · have : a ∈ ((collectRecommended sp al cp).1).dedup :=
        List.mem_dedup.mpr (by rw [hnil]; exact List.mem_cons_self a rest)
      rw [h] at this
      exact List.not_mem_nil _ this

/-- When fewer than two agents come from the learned patterns,
`"coordinator"` is appended and survives deduplication. -/
theorem make_intelligent_routing_decision_coordinator_mem
    (conv : Conversation) (sp : List SimilarPattern)
    (al : List AgentLearningInfo) (cp : List CustomerPattern)
    (h : (collectRecommended sp al cp).1.length < 2) :
    "coordinator" ∈ (make_intelligent_routing_decision conv sp al cp).recommended_agents := by
  simp only [make_intelligent_routing_decision]
  rw [if_pos h]
  exact List.mem_dedup.mpr (by simp)

/-! ## The claims -/

/-- C10: after the reset-memory route runs, `global_memory` no longer
contains the `agent_optimizations` and `routing_optimizations` keys present
after construction, so a subsequently attempted learned-optimization
application fails (`KeyError`, caught, reported as not applied) and yields
no applied optimizations. -/
theorem reset_memory_drops_optimization_keys :
    initGlobalMemory.agent_optimizations.isSome = true ∧
    initGlobalMemory.routing_optimizations.isSome = true ∧
    resetGlobalMemory.agent_optimizations = none ∧
    resetGlobalMemory.routing_optimizations = none ∧
    (∀ opt now,
      apply_agent_parameter_optimization resetGlobalMemory opt now =
        (false, resetGlobalMemory)) ∧
    (∀ opt rd now,
      apply_routing_optimization resetGlobalMemory opt rd now =
        (false, resetGlobalMemory)) ∧
    (∀ db conv rd now,
      apply_learnings_optimizations db conv rd resetGlobalMemory now =
        ([], resetGlobalMemory)) := by
  refine ⟨rfl, rfl, rfl, rfl, fun opt now => rfl, fun opt rd now => rfl, ?_⟩
  intro db conv rd now
  have hagent : ∀ (ls : List LearningRow) (acc : List Optimization),
      ls.foldl
        (fun (acc : List Optimization × GlobalMemory) l =>
          let opt := Optimization.agentParam l.agent_type l.content
            l.confidence_score l.category false
          match apply_agent_parameter_optimization acc.2 opt now with
          | (true, mem') => (acc.1 ++ [opt.setApplied true], mem')
          | (false, mem') => (acc.1, mem'))
        (acc, resetGlobalMemory) = (acc, resetGlobalMemory) := by
    intro ls
    induction ls with
    | nil => intro acc; rfl
    | cons l ls ih => intro acc; exact ih acc
  have hrouting : ∀ (ls : List LearningRow) (acc : List Optimization),
      ls.foldl
        (fun (acc : List Optimization × GlobalMemory) p =>
          let opt := Optimization.routingLogic p.content p.confidence_score
            p.category false
          match apply_routing_optimization acc.2 opt (some rd) now with
          | (true, mem') => (acc.1 ++ [opt.setApplied true], mem')
          | (false, mem') => (acc.1, mem'))
        (acc, resetGlobalMemory) = (acc, resetGlobalMemory) := by
    intro ls
    induction ls with
    | nil => intro acc; rfl
    | cons l ls ih => intro acc; exact ih acc
  simp only [apply_learnings_optimizations,
    optimize_agent_parameters_from_learnings, optimize_routing_from_learnings,
    hagent, hrouting]
  rfl

/-- C4 counterexample: from the initial state, two invocations of the
optimization trigger at 3600 s and 7200 s — both strictly inside the 24-hour
window, as `_should_optimize` confirms — append two entries to
`optimization_history`, not one: the trigger route runs
`_run_optimization_cycle` unconditionally. -/
theorem optimization_trigger_not_gated_counterexample :
    should_optimize (initSuperAgentState emptyDb none 0) 3600 = false ∧
    should_optimize
      (trigger_optimization_cycle (initSuperAgentState emptyDb none 0) 3600)
      7200 = false ∧
    (trigger_optimization_cycle
      (trigger_optimization_cycle (initSuperAgentState emptyDb none 0) 3600)
      7200).global_memory.optimization_history.length = 2 := by
  decide

/-- C4 (amended): invoking the optimization trigger twice within the
optimization-frequency window appends exactly two entries to
`optimization_history` — each invocation unconditionally appends one; the
`_should_optimize` guard is not consulted on the trigger path. -/
theorem optimization_trigger_appends_per_invocation (st : SAState)
    (t1 t2 : Nat) (_h : t2 - t1 < 24 * 3600) :
    (trigger_optimization_cycle (trigger_optimization_cycle st t1)
      t2).global_memory.optimization_history.length =
      st.global_memory.optimization_history.length + 2 := by
  simp [trigger_optimization_cycle, run_optimization_cycle]

/-- C4 witness: the amended theorem at the initial state with invocations at
3600 s and 7200 s. -/
theorem optimization_trigger_appends_per_invocation_witness :
    7200 - 3600 < 24 * 3600 ∧
    (trigger_optimization_cycle
      (trigger_optimization_cycle (initSuperAgentState emptyDb none 0) 3600)
      7200).global_memory.optimization_history.length =
      (initSuperAgentState emptyDb none
        0).global_memory.optimization_history.length + 2 :=
  ⟨by decide,
   optimization_trigger_appends_per_invocation
     (initSuperAgentState emptyDb none 0) 3600 7200 (by decide)⟩

/-- C7: for every per-agent state and appended learning event, the learning
history holds at most 100 entries after the append; the result is the
appended history with its oldest surplus dropped (FIFO); in particular at
capacity 100 exactly the oldest entry is evicted. -/
theorem learning_history_bounded_and_fifo (st : BaseAgentState)
    (outcome : AgentLearningOutcome) (now : Nat) :
    (update_local_memory st outcome now).learning_history.length ≤ 100 ∧
    (update_local_memory st outcome now).learning_history =
      (st.learning_history ++ [mk_history_entry outcome now]).drop
        (st.learning_history.length + 1 - 100) ∧
    (st.learning_history.length = 100 →
      (update_local_memory st outcome now).learning_history =
        st.learning_history.drop 1 ++ [mk_history_entry outcome now]) := by
  have hmetrics : ∀ (s : BaseAgentState),
      (update_performance_metrics s outcome).learning_history =
        s.learning_history := by
    intro s
    simp only [update_performance_metrics]
    split <;> rfl
  simp only [update_local_memory, hmetrics]
  set l := st.learning_history with hl
  set e := mk_history_entry outcome now with he
  have hlen : (l ++ [e]).length = l.length + 1 := by simp
  refine ⟨?_, ?_, ?_⟩
  · split
    · next hgt =>
      rw [List.length_drop, hlen]
      omega
    · next hle =>
      rw [hlen]
      omega
  · split
    · next hgt => rw [hlen]
    · next hle =>
      rw [hlen] at hle
      have : l.length + 1 - 100 = 0 := by omega
      rw [this, List.drop_zero]
  · intro h100
    have hgt : 100 < (l ++ [e]).length := by rw [hlen, h100]; omega
    rw [if_pos hgt, hlen, h100]
    have : 100 + 1 - 100 = 1 := by omega
    rw [this]
    exact List.drop_append_of_le_length (by rw [h100]; omega)

/-- C7 witness: at exact capacity (100 entries), appending evicts exactly
the oldest entry. -/
theorem learning_history_bounded_and_fifo_witness :
    (List.replicate 100 histEntry0).length = 100 ∧
    (update_local_memory agentStateFull agentOutcome0 5).learning_history =
      (List.replicate 100 histEntry0).drop 1 ++
        [mk_history_entry agentOutcome0 5] :=
  ⟨by simp,
   (learning_history_bounded_and_fifo agentStateFull agentOutcome0 5).2.2
     (by simp [agentStateFull])⟩

/-- C2: for every conversation for which pattern mining finds no patterns at
all (no similar-conversation patterns, no agent learnings for the category,
no customer success patterns), `_apply_learnings_for_routing` returns
exactly the deterministic fallback: `recommended_agents = [category,
"coordinator"]`, `confidence_score = 0.5`, `learning_based = false` (with no
patterns used and no optimization applied). -/
theorem decide_fallback_on_no_patterns (db : Db) (conv : Conversation)
    (mem : GlobalMemory) (now : Nat)
    (h1 : find_similar_conversation_patterns db conv = [])
    (h2 : find_agent_learnings_for_category db conv.category = [])
    (h3 : find_customer_success_patterns db conv.customer_id = []) :
    (apply_learnings_for_routing db conv mem now).1 =
      { recommended_agents := [conv.category, "coordinator"],
        confidence_score := 1/2, learning_based := false,
        patterns_used := [], optimization_applied := false } := by
  simp only [apply_learnings_for_routing, h1, h2, h3, List.isEmpty_nil,
    Bool.and_self, if_true]
  norm_num [pf, Rat.mkRat_eq_div]

/-- C2 witness: a `ventas` conversation against the empty store. -/
theorem decide_fallback_on_no_patterns_witness :
    find_similar_conversation_patterns emptyDb convVentas = [] ∧
    find_agent_learnings_for_category emptyDb convVentas.category = [] ∧
    find_customer_success_patterns emptyDb convVentas.customer_id = [] ∧
    (apply_learnings_for_routing emptyDb convVentas initGlobalMemory 0).1 =
      { recommended_agents := ["ventas", "coordinator"],
        confidence_score := 1/2, learning_based := false,
        patterns_used := [], optimization_applied := false } :=
  ⟨rfl, rfl, rfl, by
    have h := decide_fallback_on_no_patterns emptyDb convVentas
      initGlobalMemory 0 rfl rfl rfl
    simpa [convVentas] using h⟩

/-- C3: for every routing decision produced from learned patterns, if fewer
than 2 agents were recommended from the learned patterns then
`"coordinator"` is a member of the final (deduplicated) recommended-agents
list; and the recommended-agents list is never empty. -/
theorem routing_decision_coordinator_fallback_and_nonempty
    (conv : Conversation) (sp : List SimilarPattern)
    (al : List AgentLearningInfo) (cp : List CustomerPattern) :
    ((collectRecommended sp al cp).1.length < 2 →
      "coordinator" ∈
        (make_intelligent_routing_decision conv sp al cp).recommended_agents) ∧
    (make_intelligent_routing_decision conv sp al cp).recommended_agents ≠ [] :=
  ⟨fun h => make_intelligent_routing_decision_coordinator_mem conv sp al cp h,
   make_intelligent_routing_decision_recommended_ne_nil conv sp al cp⟩

/-- C3 witness: with no patterns at all, zero agents are collected, so the
coordinator is appended and the final list is non-empty. -/
theorem routing_decision_coordinator_fallback_and_nonempty_witness :
    (collectRecommended [] [] []).1.length < 2 ∧
    "coordinator" ∈
      (make_intelligent_routing_decision convVentas [] [] []).recommended_agents ∧
    (make_intelligent_routing_decision convVentas [] [] []).recommended_agents ≠ [] :=
  ⟨by decide,
   (routing_decision_coordinator_fallback_and_nonempty convVentas [] [] []).1
     (by decide),
   (routing_decision_coordinator_fallback_and_nonempty convVentas [] [] []).2⟩

/-- C8: for every conversation whose customer reference is absent (empty) or
not a valid UUID, `_find_customer_success_patterns` returns the empty list
(rather than raising), and processing continues: the routing step still
produces a non-empty recommended-agents list for such a conversation. -/
theorem invalid_customer_reference_yields_no_patterns (db : Db) (cid : String)
    (h : cid = "" ∨ is_valid_uuid cid = false) :
    find_customer_success_patterns db cid = [] ∧
    (∀ conv mem now, Conversation.customer_id conv = cid →
      (apply_learnings_for_routing db conv mem now).1.recommended_agents ≠ []) := by
  constructor
  · rcases h with h | h
    · simp [find_customer_success_patterns, h]
    · simp [find_customer_success_patterns, h]
  · intro conv mem now hconv
    simp only [apply_learnings_for_routing]
    split
    · simp
    · have hne := make_intelligent_routing_decision_recommended_ne_nil conv
        (find_similar_conversation_patterns db conv)
        (find_agent_learnings_for_category db conv.category)
        (find_customer_success_patterns db conv.customer_id)
      simpa using hne

/-- C8 witness: a store holding a conversation row for the literal customer
key `"not-a-uuid"`; mining returns no pattern for it, yet routing still
yields agents. -/
theorem invalid_customer_reference_yields_no_patterns_witness :
    is_valid_uuid "not-a-uuid" = false ∧
    find_customer_success_patterns dbWithCustomerRow "not-a-uuid" = [] ∧
    (apply_learnings_for_routing dbWithCustomerRow convAnon initGlobalMemory
      0).1.recommended_agents ≠ [] :=
  ⟨by decide,
   (invalid_customer_reference_yields_no_patterns dbWithCustomerRow
     "not-a-uuid" (Or.inr (by decide))).1,
   (invalid_customer_reference_yields_no_patterns dbWithCustomerRow
     "not-a-uuid" (Or.inr (by decide))).2 convAnon initGlobalMemory 0 rfl⟩

/-- C6 counterexample: with no participating agent results,
`_calculate_overall_confidence` returns `0.8`, while the specified value —
the mean of participating non-error confidences, default `0.5` if none
(`spec_overall_confidence`) — is `0.5`; the two differ. -/
theorem overall_confidence_not_mean_counterexample :
    calculate_overall_confidence ([] : List (String × AgentResult)) = 4/5 ∧
    spec_overall_confidence ([] : List (String × AgentResult)) = 1/2 ∧
    calculate_overall_confidence ([] : List (String × AgentResult)) ≠
      spec_overall_confidence ([] : List (String × AgentResult)) := by
  refine ⟨?_, ?_, ?_⟩
  · norm_num [calculate_overall_confidence, pf, Rat.mkRat_eq_div]
  · norm_num [spec_overall_confidence, pf, Rat.mkRat_eq_div]
  · norm_num [calculate_overall_confidence, spec_overall_confidence, pf,
      Rat.mkRat_eq_div]

/-- C6 (amended): for every set of agent results, the synthesis's overall
confidence score is the constant `0.8` (the source stub), independent of the
participating agents' confidences — not their mean, and not `0.5` when none
participate. -/
theorem overall_confidence_constant
    (agent_results : List (String × AgentResult)) (conv : Conversation)
    (now : Nat) :
    (synthesize_agent_results agent_results conv now).confidence_score = 4/5 := by
  norm_num [synthesize_agent_results, calculate_overall_confidence, pf,
    Rat.mkRat_eq_div]

/-- C1 (the code at the failing input): running the full pipeline twice from
the initial state with the same 36-character conversation id persists two
`("super_agent", "conversation_learning")` rows, not one — the duplicate
check compares the full id against stored content that only embeds its
first 8 characters, so the second run's writes are not detected. -/
theorem processing_twice_duplicates_conversation_learning :
    countLearningRows
      ((process_conversation noFaults convLongId 200
        ((process_conversation noFaults convLongId 100
          (initSuperAgentState emptyDb none 0)).2)).2).db
      "super_agent" "conversation_learning" = 2 := by
  decide

/-! Metric-preservation lemmas for the C5 analysis. -/

/-- Embeds `_update_global_metrics` adds exactly one to the conversation counter. -/
theorem update_global_metrics_total (m : AggregatedMetrics) (syn : Synthesis) :
    (update_global_metrics m syn).total_conversations =
      m.total_conversations + 1 := by
  simp only [update_global_metrics]
  split <;> rfl

/-- Embeds `_update_global_memory` adds exactly one to the conversation counter. -/
theorem update_global_memory_total (st : SAState) (conv : Conversation)
    (syn : Synthesis) (now : Nat) :
    (update_global_memory st conv syn now).aggregated_metrics.total_conversations =
      st.aggregated_metrics.total_conversations + 1 := by
  simp [update_global_memory, update_global_metrics_total]

/-- Embeds `_trigger_learning_cycle` does not touch the aggregated metrics. -/
theorem trigger_learning_cycle_metrics (st : SAState)
    (o : LearningOutcome) (now : Nat) :
    (trigger_learning_cycle st o now).aggregated_metrics =
      st.aggregated_metrics := rfl

/-- Embeds `_sync_memory_to_database` does not touch the aggregated metrics. -/
theorem sync_memory_to_database_metrics (st : SAState) (now : Nat) :
    (sync_memory_to_database st now).aggregated_metrics =
      st.aggregated_metrics := by
  rcases h : st.db_id with _ | did <;> simp only [sync_memory_to_database, h]
  split <;> rfl

/-- Embeds `_update_super_agent_metrics` does not touch the aggregated metrics. -/
theorem update_super_agent_metrics_metrics (st : SAState)
    (conv : Conversation) (o : LearningOutcome) (now : Nat) :
    (update_super_agent_metrics st conv o now).aggregated_metrics =
      st.aggregated_metrics := by
  rcases h : st.db_id with _ | did <;>
    simp only [update_super_agent_metrics, h]
  split <;> rfl

/-- Embeds `_save_learnings_to_db` does not touch the aggregated metrics. -/
theorem save_learnings_to_db_metrics (st : SAState) (conv : Conversation)
    (o : LearningOutcome) (now : Nat) :
    (save_learnings_to_db st conv o now).aggregated_metrics =
      st.aggregated_metrics := by
  simp only [save_learnings_to_db]
  split
  · rfl
  · rw [update_super_agent_metrics_metrics]

/-- Embeds `_learn_from_conversation` adds exactly one to the conversation counter
(through its inner call of `_update_global_memory`). -/
theorem learn_from_conversation_total (st : SAState) (conv : Conversation)
    (syn : Synthesis) (now : Nat) :
    ((learn_from_conversation st conv syn
      now).2).aggregated_metrics.total_conversations =
      st.aggregated_metrics.total_conversations + 1 := by
  simp only [learn_from_conversation]
  rw [sync_memory_to_database_metrics]
  split
  · rw [trigger_learning_cycle_metrics]
    exact update_global_memory_total st conv syn now
  · exact update_global_memory_total st conv syn now

/-- C5 (the code): each complete, fault-free call of `process_conversation`
adds exactly 2 — not 1 — to `aggregated_metrics["total_conversations"]`:
`_update_global_memory` (which increments the counter) is invoked both
inside `_learn_from_conversation` (step 5) and directly as step 9. -/
theorem process_conversation_double_counts_conversations
    (conv : Conversation) (now : Nat) (s : SAState) :
    ((process_conversation noFaults conv now
      s).2).aggregated_metrics.total_conversations =
      s.aggregated_metrics.total_conversations + 2 := by
  simp only [process_conversation, bindE, runStep, noFaults, pureE, getE,
    modifyGetE, modifyE]
  split
  · rw [trigger_learning_cycle_metrics, update_global_memory_total,
      save_learnings_to_db_metrics, learn_from_conversation_total]
  · rw [update_global_memory_total, save_learnings_to_db_metrics,
      learn_from_conversation_total]

/-- C9: for every fault oracle, conversation and state, the top-level entry
point returns a dictionary and never propagates an exception: either the
full processing result (carrying the conversation's id), or the
`{"error": ...}` dictionary whose message is that of a faulted internal
step. -/
theorem process_conversation_total_outcome (f : Faults) (conv : Conversation)
    (now : Nat) (s : SAState) :
    (∃ r, (process_conversation f conv now s).1 = ProcessOutput.ok r ∧
      r.conversation_id = conv.id) ∨
    (∃ e, (process_conversation f conv now s).1 = ProcessOutput.err e ∧
      ∃ step, f step = some e) := by
  simp only [process_conversation, bindE, runStep, pureE, getE, modifyGetE,
    modifyE]
  rcases h1 : f Step.analyzeContext with _ | m1
  · rcases h2 : f Step.applyRouting with _ | m2
    · rcases h3 : f Step.routeAgents with _ | m3
      · rcases h4 : f Step.synthesize with _ | m4
        · rcases h5 : f Step.learn with _ | m5
          · rcases h6 : f Step.saveLearnings with _ | m6
            · rcases h7 : f Step.updateMetricsDb with _ | m7
              · rcases h8 : f Step.updateMemory with _ | m8
                · rcases h9 : f Step.checkSignificant with _ | m9
                  · simp only [h1, h2, h3, h4, h5, h6, h7, h8, h9]
                    exact Or.inl ⟨_, rfl, rfl⟩
                  · simp only [h1, h2, h3, h4, h5, h6, h7, h8, h9]
                    exact Or.inr ⟨m9, rfl, Step.checkSignificant, h9⟩
                · simp only [h1, h2, h3, h4, h5, h6, h7, h8]
                  exact Or.inr ⟨m8, rfl, Step.updateMemory, h8⟩
              · simp only [h1, h2, h3, h4, h5, h6, h7]
                exact Or.inr ⟨m7, rfl, Step.updateMetricsDb, h7⟩
            · simp only [h1, h2, h3, h4, h5, h6]
              exact Or.inr ⟨m6, rfl, Step.saveLearnings, h6⟩
          · simp only [h1, h2, h3, h4, h5]
            exact Or.inr ⟨m5, rfl, Step.learn, h5⟩
        · simp only [h1, h2, h3, h4]
          exact Or.inr ⟨m4, rfl, Step.synthesize, h4⟩
      · simp only [h1, h2, h3]
        exact Or.inr ⟨m3, rfl, Step.routeAgents, h3⟩
    · simp only [h1, h2]
      exact Or.inr ⟨m2, rfl, Step.applyRouting, h2⟩
  · simp only [h1]
    exact Or.inr ⟨m1, rfl, Step.analyzeContext, h1⟩

end Agent99
